import Mathlib

/-!
Verification of the llamate configuration-rendering and supervision core.

Shallow embedding of:
  - services/llama_swap.py : generate_config, save_llama_swap_config
  - core/config.py         : load_model_config (outcome classification)
  - cli/commands/model.py  : model_remove_command
  - cli/commands/serve.py  : serve_command restart decision, monitor_config_files

Python dictionaries are embedded as association lists in insertion order;
exceptions are embedded as Except values; the file system is passed in
explicitly (a snapshot of what each read would observe).
-/

namespace Llamate

/-- Per-model configuration dictionary as produced by load_model_config in
core/config.py: the reserved fields hf_repo and hf_file, the args mapping
(string to string, in insertion order), and the remaining top-level fields
kept as an association list (extra).  hf_file is an Option because
generate_config reads it with a bare indexing operation that raises
KeyError when the key is missing. -/
structure ModelConfig where
  hf_repo : Option String := none
  hf_file : Option String := none
  args : List (String × String) := []
  extra : List (String × String) := []
  deriving Repr, DecidableEq

/-- Global settings dictionary as returned by load_global_config, restricted
to the fields generate_config reads.  llama_server_path is an Option so that
the dict.get fallback to the literal string llama-server can be modelled;
ggufs_storage_path is always present because DEFAULT_CONFIG supplies it;
passthrough holds whichever of the four recognised scalar keys
(healthCheckTimeout, logLevel, startPort, macros) are present, in order;
groups is present only when the stored settings define it. -/
structure GlobalConfig where
  llama_server_path : Option String := none
  ggufs_storage_path : String := ""
  passthrough : List (String × String) := []
  groups : Option (List (String × List String)) := none
  deriving Repr, DecidableEq

/-- One entry of the rendered models mapping: the cmd string, the optional
sibling proxy field, and the forwarded non-reserved model fields. -/
structure ModelEntry where
  cmd : String := ""
  proxy : Option String := none
  extra : List (String × String) := []
  deriving Repr, DecidableEq

/-- The rendered llama-swap document.  models and groups are Options because
generate_config omits those keys entirely in some cases; none here means the
key is absent from the document. -/
structure RenderedDoc where
  passthrough : List (String × String) := []
  models : Option (List (String × ModelEntry)) := none
  groups : Option (List (String × List String)) := none
  deriving Repr, DecidableEq

/-- Embedding of str(Path(dir) / file) for the path shapes that occur here:
an empty or dot directory yields the bare file name, otherwise the two are
joined with a single slash. -/
def pathJoin (dir file : String) : String :=
  if dir = "" ∨ dir = "." then file
  else if dir.toList.getLast? == some '/' then dir ++ file
  else dir ++ "/" ++ file

/-- One command fragment for a configured argument, from generate_config line
175: a bare boolean flag when the value is the literal string true, otherwise
the flag followed by a space and the value. -/
def argPart (key value : String) : String :=
  if value = "true" then "--" ++ key else "--" ++ key ++ " " ++ value

/-- The cmd_parts list built by generate_config for one model: the serving
binary path, the model segment, then one fragment per configured argument in
insertion order, with the reserved proxy key skipped. -/
def cmdParts (llamaPath ggufPath : String) (args : List (String × String)) : List String :=
  [llamaPath, "--model " ++ ggufPath] ++
    (args.filter (fun kv => !(kv.1 == "proxy"))).map (fun kv => argPart kv.1 kv.2)

/-- Embedding of cmd_text at generate_config line 177: the parts joined by
newlines with one trailing newline. -/
def cmdText (parts : List String) : String :=
  String.intercalate "\n" parts ++ "\n"

/-- The models entry generate_config builds for one model whose hf_file is
present: cmd from the parts (overridden afterwards if the model file itself
carries a top-level cmd key, because model_entry.update runs after cmd is
set), proxy from the args map, overridden by a top-level proxy field for the
same reason, and the remaining non-reserved fields forwarded. -/
def genModelEntry (llamaPath storage : String) (mc : ModelConfig) (hfFile : String) :
    ModelEntry :=
  let ggufPath := pathJoin storage hfFile
  let parts := cmdParts llamaPath ggufPath mc.args
  { cmd := (mc.extra.lookup "cmd").getD (cmdText parts)
    proxy := (mc.extra.lookup "proxy").orElse (fun _ => mc.args.lookup "proxy")
    extra := mc.extra.filter (fun kv => !(kv.1 == "proxy") && !(kv.1 == "cmd")) }

/-- Exceptions generate_config itself can raise: the KeyError from reading
hf_file on a model dictionary that lacks it. -/
inductive RenderErr where
  | keyError
  deriving Repr, DecidableEq

/-- The per-model loop of generate_config: entries are built in order and the
first model missing hf_file raises, aborting the whole render. -/
def renderEntries (llamaPath storage : String) :
    List (String × ModelConfig) → Except RenderErr (List (String × ModelEntry))
  | [] => .ok []
  | (name, mc) :: rest =>
    match mc.hf_file with
    | none => .error .keyError
    | some f =>
      match renderEntries llamaPath storage rest with
      | .error e => .error e
      | .ok es => .ok ((name, genModelEntry llamaPath storage mc f) :: es)

/-- Embedding of generate_config in services/llama_swap.py, with the dict
returned by load_global_config passed explicitly.  The models key is attached
only when the models mapping is non-empty, and the groups key is copied from
the global settings only when present there. -/
def generate_config (g : GlobalConfig) (modelConfigs : List (String × ModelConfig)) :
    Except RenderErr RenderedDoc :=
  match renderEntries (g.llama_server_path.getD "llama-server")
      g.ggufs_storage_path modelConfigs with
  | .error e => .error e
  | .ok entries =>
    .ok { passthrough := g.passthrough
          models := if entries.isEmpty then none else some entries
          groups := g.groups }

/-- What one backing model file looks like when load_model_config reads it:
gone from disk (the existence check fails), present but not valid YAML, or
successfully parsed into a model dictionary. -/
inductive ModelFile where
  | missing
  | malformed
  | parsed (mc : ModelConfig)
  deriving Repr, DecidableEq

/-- The two exception classes load_model_config raises: ValueError when the
file does not exist, RuntimeError wrapping a YAML or OS error. -/
inductive LoadErr where
  | valueError
  | runtimeError
  deriving Repr, DecidableEq

/-- Outcome of load_model_config in core/config.py on one backing file. -/
def load_model_config : ModelFile → Except LoadErr ModelConfig
  | .missing => .error .valueError
  | .malformed => .error .runtimeError
  | .parsed mc => .ok mc

/-- The enumeration loop of save_llama_swap_config: each globbed file is
loaded inside a try block whose except clause catches ValueError and KeyError
and continues; a RuntimeError is not caught and propagates, aborting the
enumeration. -/
def collectModels : List (String × ModelFile) → Except LoadErr (List (String × ModelConfig))
  | [] => .ok []
  | (name, file) :: rest =>
    match load_model_config file with
    | .ok mc =>
      match collectModels rest with
      | .error e => .error e
      | .ok ms => .ok ((name, mc) :: ms)
    | .error .valueError => collectModels rest
    | .error .runtimeError => .error .runtimeError

/-- Exceptions that can escape save_llama_swap_config: an uncaught load error
from the enumeration, or a render error from generate_config. -/
inductive SaveErr where
  | loadErr (e : LoadErr)
  | renderErr (e : RenderErr)
  deriving Repr, DecidableEq

/-- Embedding of save_llama_swap_config in services/llama_swap.py: enumerate
the backing files, then render; the disk write of the resulting document is
outside the embedding, so the document itself is returned. -/
def save_llama_swap_config (g : GlobalConfig) (files : List (String × ModelFile)) :
    Except SaveErr RenderedDoc :=
  match collectModels files with
  | .error e => .error (.loadErr e)
  | .ok ms =>
    match generate_config g ms with
    | .error e => .error (.renderErr e)
    | .ok doc => .ok doc

/-- Observable outcome of the model remove command: whether an exception
propagated out, whether the NotFound error message was printed, and whether
the backing file was removed. -/
structure RemoveOutcome where
  raised : Bool
  errorPrinted : Bool
  fileRemoved : Bool
  deriving Repr, DecidableEq

/-- load_model_config addressed by model name against a store of backing
files: a name with no backing file raises ValueError. -/
def loadFromStore (store : List (String × ModelFile)) (name : String) :
    Except LoadErr ModelConfig :=
  match store.lookup name with
  | none => .error .valueError
  | some f => load_model_config f

/-- Embedding of model_remove_command in cli/commands/model.py, restricted to
its effect on the model store: the initial load is wrapped in a try whose
except clause catches only ValueError (printing an error message), so a
RuntimeError from a corrupt record propagates; on success the file is
unlinked with missing_ok and save_llama_swap_config is re-run on the
remaining store, whose own uncaught errors also propagate.  Alias cleanup and
the GGUF prompt touch only the global settings and artifact files, not the
store, and are elided. -/
def model_remove_command (g : GlobalConfig) (store : List (String × ModelFile))
    (name : String) : RemoveOutcome × List (String × ModelFile) :=
  match loadFromStore store name with
  | .error .valueError => ({ raised := false, errorPrinted := true, fileRemoved := false }, store)
  | .error .runtimeError => ({ raised := true, errorPrinted := false, fileRemoved := false }, store)
  | .ok _ =>
    let store2 := store.filter (fun p => !(p.1 == name))
    match save_llama_swap_config g store2 with
    | .error _ => ({ raised := true, errorPrinted := false, fileRemoved := true }, store2)
    | .ok _ => ({ raised := false, errorPrinted := false, fileRemoved := true }, store2)

/-- What the serve loop does once the child process has exited on its own:
either leave the loop reporting the exit code, or re-render the configuration
and restart the child. -/
inductive ServeNext where
  | exitLoop (code : Int)
  | rerenderAndRestart
  deriving Repr, DecidableEq

/-- The POSIX exit status of a process terminated by SIGTERM: 128 plus the
signal number 15. -/
def sigtermExitCode : Int := 128 + 15

/-- The restart decision at serve_command line 215: the loop breaks exactly
when the exit code is neither 0 nor 143 (the hardcoded SIGTERM status);
otherwise the configuration is saved again and the child is relaunched. -/
def serveAfterExit (rc : Int) : ServeNext :=
  if rc ≠ 0 ∧ rc ≠ 143 then .exitLoop rc else .rerenderAndRestart

/-- The serve loop folded over a sequence of observed child exit codes:
returns how many restarts happened before the loop left, and the reported
fatal exit code if any. -/
def serveLoop : List Int → Nat × Option Int
  | [] => (0, none)
  | rc :: rest =>
    match serveAfterExit rc with
    | .exitLoop r => (0, some r)
    | .rerenderAndRestart =>
      let p := serveLoop rest
      (p.1 + 1, p.2)

/-- State carried across iterations of monitor_config_files: the last seen
mtime of the main config file (none when the file was absent) and the
tracked per-model files with their mtimes. -/
structure WatchState where
  mainTime : Option Nat
  modelFiles : List (String × Nat)
  deriving Repr, DecidableEq

/-- What one polling tick observes on disk: existence and mtime of the main
config file, existence of the models directory, and the globbed per-model
files with their mtimes in glob order. -/
structure FsSnapshot where
  mainExists : Bool
  mainMtime : Nat
  dirExists : Bool
  models : List (String × Nat)
  deriving Repr, DecidableEq

/-- Python truthiness of the stored mtime: None and 0.0 are both falsy, which
is exactly the test the monitor uses for the main file. -/
def timeTruthy : Option Nat → Bool
  | none => false
  | some t => t != 0

/-- Result of one tick of the monitor loop body: keep polling with an updated
state, or signal the supervisor (terminate the child) and return from the
loop. -/
inductive WatchResult where
  | next (st : WatchState)
  | signal
  deriving Repr, DecidableEq

/-- The new-or-modified scan over the globbed model files at serve.py lines
74 to 83: the tick signals as soon as some current file is untracked or has a
different mtime than tracked. -/
def findChanged (tracked : List (String × Nat)) : List (String × Nat) → Bool
  | [] => false
  | (f, m) :: rest =>
    if tracked.lookup f == some m then findChanged tracked rest else true

/-- The per-model part of a monitor tick: skipped entirely when the models
directory does not exist; otherwise a new or modified file signals, then a
strictly smaller current file set signals (a deletion), else the tick
continues with the state unchanged. -/
def checkModels (st : WatchState) (snap : FsSnapshot) : WatchResult :=
  if !snap.dirExists then .next st
  else if findChanged st.modelFiles snap.models then .signal
  else if snap.models.length < st.modelFiles.length then .signal
  else .next st

/-- One iteration of the while body of monitor_config_files: the three main
file branches in source order (created, deleted, modified), falling through
to the per-model checks.  The deleted branch clears the stored mtime and
continues, skipping the per-model checks for that tick. -/
def monitorStep (st : WatchState) (snap : FsSnapshot) : WatchResult :=
  if !(timeTruthy st.mainTime) && snap.mainExists then .signal
  else if timeTruthy st.mainTime && !snap.mainExists then
    .next { st with mainTime := none }
  else if snap.mainExists && timeTruthy st.mainTime
      && !(st.mainTime == some snap.mainMtime) then .signal
  else checkModels st snap

/-- The monitor loop run over a finite sequence of ticks, counting how many
times it signals the supervisor: the loop returns immediately after the first
signal, so later snapshots are never polled. -/
def monitorRun (st : WatchState) : List FsSnapshot → Nat
  | [] => 0
  | snap :: rest =>
    match monitorStep st snap with
    | .signal => 1
    | .next st2 => monitorRun st2 rest

/-- Global settings for the add-then-render scenario of the spec: the serving
binary at /bin/server and artifact storage at /data. -/
def g7 : GlobalConfig :=
  { llama_server_path := some "/bin/server", ggufs_storage_path := "/data" }

/-- The model of the add-then-render scenario: artifact file m1.gguf and a
single ctx-size argument. -/
def mc7 : ModelConfig := { hf_file := some "m1.gguf", args := [("ctx-size", "4096")] }

/-- The cmd string of a named model entry in a render result, or the empty
string when the render failed or the entry is absent. -/
def renderedCmd (r : Except RenderErr RenderedDoc) (name : String) : String :=
  match r with
  | .ok d => (((d.models.getD []).lookup name).map ModelEntry.cmd).getD ""
  | .error _ => ""

/-- Claim C7, counterexample: on the scenario input (storage /data, binary
/bin/server, model m1 with artifact m1.gguf and args ctx-size 4096) the
rendered cmd is not the space-joined string the claim demands, because
generate_config joins the command parts with newlines. -/
theorem c7_counterexample :
    renderedCmd (generate_config g7 [("m1", mc7)]) "m1" ≠
      "/bin/server --model /data/m1.gguf --ctx-size 4096" := by
  decide

/-- Claim C7, amended: on the scenario input the rendered entry m1 has a cmd
equal to the binary path, the model segment with the resolved artifact path,
and the ctx-size argument, in that order, joined by newlines and ending in a
newline. -/
theorem c7_theorem :
    renderedCmd (generate_config g7 [("m1", mc7)]) "m1" =
      "/bin/server\n--model /data/m1.gguf\n--ctx-size 4096\n" := by
  decide

/-- Global settings with no groups entry. -/
def gNoGroups : GlobalConfig := {}

/-- Claim C2, counterexample: rendering global settings that carry no groups
entry produces a document whose groups key is absent (none), not an empty
map, refuting that the key is never omitted. -/
theorem c2_counterexample :
    generate_config gNoGroups [] =
      .ok { passthrough := [], models := none, groups := none } := by
  rfl

/-- Claim C2, amended: the rendered document carries a groups key exactly
when the global settings do, and then it is the same mapping; when the
global settings have no groups entry the key is omitted from the document. -/
theorem c2_theorem (g : GlobalConfig) (mcs : List (String × ModelConfig))
    (doc : RenderedDoc) (h : generate_config g mcs = .ok doc) :
    doc.groups = g.groups := by
  unfold generate_config at h
  split at h
  · exact Except.noConfusion h
  · cases h
    rfl

/-- Global settings carrying a groups entry, for the C2 witness. -/
def gGroups : GlobalConfig := { groups := some [("group1", ["model1"])] }

/-- The document rendered from gGroups with no models. -/
def docGroups : RenderedDoc := { groups := some [("group1", ["model1"])] }

/-- Witness for the amended C2 theorem at a concrete input. -/
theorem c2_witness : docGroups.groups = gGroups.groups :=
  c2_theorem gGroups [] docGroups rfl

/-- Claim C4: after the child exits on its own the next action is a function
of the exit status alone; the SIGTERM exit status 143 loops back into a
restart, and any other non-zero status leaves the loop reporting that code
verbatim. -/
theorem c4_theorem (rc : Int) :
    (rc = sigtermExitCode → serveAfterExit rc = ServeNext.rerenderAndRestart) ∧
    (rc ≠ 0 → rc ≠ sigtermExitCode → serveAfterExit rc = ServeNext.exitLoop rc) := by
  have h143 : sigtermExitCode = 143 := by norm_num [sigtermExitCode]
  constructor
  · intro h
    subst h
    rw [h143]
    simp [serveAfterExit]
  · intro h0 hs
    rw [h143] at hs
    simp [serveAfterExit, h0, hs]

/-- Witness for C4: exit status 143 restarts, exit status 7 stops and reports
7. -/
theorem c4_witness :
    serveAfterExit 143 = ServeNext.rerenderAndRestart ∧
      serveAfterExit 7 = ServeNext.exitLoop 7 :=
  ⟨(c4_theorem 143).1 (by norm_num [sigtermExitCode]),
   (c4_theorem 7).2 (by norm_num) (by norm_num [sigtermExitCode])⟩

/-- Claim C10: a clean exit with status 0 does not stop the supervisor; the
loop re-renders and restarts, and the restart branch is taken exactly for
statuses 0 and 143, so only other statuses break the serve loop.  Over a run,
a leading 0 exit adds one restart and leaves the eventual outcome unchanged. -/
theorem c10_theorem (rc : Int) (codes : List Int) :
    serveAfterExit 0 = ServeNext.rerenderAndRestart ∧
    (serveAfterExit rc = ServeNext.rerenderAndRestart ↔ rc = 0 ∨ rc = 143) ∧
    serveLoop (0 :: codes) = ((serveLoop codes).1 + 1, (serveLoop codes).2) := by
  refine ⟨by decide, ?_, ?_⟩
  · unfold serveAfterExit
    by_cases h : rc ≠ 0 ∧ rc ≠ 143
    · rcases h with ⟨h0, h143⟩
      simp [h0, h143]
    · push_neg at h
      by_cases h0 : rc = 0
      · simp [h0]
      · simp [h0, h h0]
  · simp [serveLoop, serveAfterExit]

/-- Witness for C10 at a concrete run: a clean exit restarts and a later
non-zero exit is reported. -/
theorem c10_witness :
    serveAfterExit 0 = ServeNext.rerenderAndRestart ∧
    (serveAfterExit 5 = ServeNext.rerenderAndRestart ↔ (5 : Int) = 0 ∨ (5 : Int) = 143) ∧
    serveLoop (0 :: [7]) = ((serveLoop [7]).1 + 1, (serveLoop [7]).2) :=
  c10_theorem 5 [7]

/-- Global settings for the proxy claim: binary /bin/server, storage /data. -/
def gA : GlobalConfig :=
  { llama_server_path := some "/bin/server", ggufs_storage_path := "/data" }

/-- A model whose args declare a proxy URL with an explicit port and nothing
else. -/
def mcProxy : ModelConfig :=
  { hf_file := some "m.gguf", args := [("proxy", "http://127.0.0.1:9999")] }

/-- The proxy field of a named model entry in a render result, or none when
the render failed or the entry is absent. -/
def renderedProxy (r : Except RenderErr RenderedDoc) (name : String) : Option String :=
  match r with
  | .ok d => (((d.models.getD []).lookup name).map ModelEntry.proxy).getD none
  | .error _ => none

/-- Claim C1, counterexample: for a model whose args declare
proxy http with port 9999, the rendered cmd does not contain the substring
claimed (port 9999 after a port flag) anywhere; the raw proxy string is
surfaced as the sibling proxy field, but no port flag is derived from it. -/
theorem c1_counterexample :
    ¬ List.IsInfix ("--port 9999").toList
        (renderedCmd (generate_config gA [("m", mcProxy)]) "m").toList ∧
    renderedProxy (generate_config gA [("m", mcProxy)]) "m" =
      some "http://127.0.0.1:9999" := by
  constructor
  · decide
  · rfl

/-- Filtering the proxy key out of the args does not change the command
parts, because cmdParts already skips that key. -/
theorem cmdParts_filter_proxy (llamaPath ggufPath : String)
    (args : List (String × String)) :
    cmdParts llamaPath ggufPath (args.filter (fun kv => !(kv.1 == "proxy"))) =
      cmdParts llamaPath ggufPath args := by
  simp only [cmdParts, List.filter_filter, Bool.and_self]

/-- Claim C1, amended: for a model record whose args map declares a proxy
value (and whose other top-level fields do not override the proxy or cmd
entries), the renderer surfaces the raw proxy string as the sibling proxy
field of the model entry, and the cmd is built only from the non-proxy args:
it equals the cmd rendered after deleting the proxy key, so the proxy
contributes nothing to cmd and in particular no port flag is parsed out of
the proxy URL. -/
theorem c1_theorem (g : GlobalConfig) (name f v : String) (mc : ModelConfig)
    (hf : mc.hf_file = some f)
    (hx : mc.extra.lookup "proxy" = none)
    (hc : mc.extra.lookup "cmd" = none)
    (hv : mc.args.lookup "proxy" = some v) :
    ∃ e : ModelEntry,
      generate_config g [(name, mc)] =
        .ok { passthrough := g.passthrough, models := some [(name, e)],
              groups := g.groups } ∧
      e.proxy = some v ∧
      e.cmd = cmdText (cmdParts (g.llama_server_path.getD "llama-server")
        (pathJoin g.ggufs_storage_path f)
        (mc.args.filter (fun kv => !(kv.1 == "proxy")))) := by
  refine ⟨genModelEntry (g.llama_server_path.getD "llama-server")
    g.ggufs_storage_path mc f, ?_, ?_, ?_⟩
  · unfold generate_config renderEntries
    rw [hf]
    rfl
  · simp [genModelEntry, hx, hv, Option.orElse]
  · simp [genModelEntry, hc, cmdParts_filter_proxy]

/-- Witness for the amended C1 theorem: the concrete proxy model renders with
the sibling proxy field and a cmd free of the proxy. -/
theorem c1_witness :
    ∃ e : ModelEntry,
      generate_config gA [("m", mcProxy)] =
        .ok { passthrough := gA.passthrough, models := some [("m", e)],
              groups := gA.groups } ∧
      e.proxy = some "http://127.0.0.1:9999" ∧
      e.cmd = cmdText (cmdParts (gA.llama_server_path.getD "llama-server")
        (pathJoin gA.ggufs_storage_path "m.gguf")
        (mcProxy.args.filter (fun kv => !(kv.1 == "proxy")))) :=
  c1_theorem gA "m" "m.gguf" "http://127.0.0.1:9999" mcProxy rfl rfl rfl rfl

/-- Claim C8: every configured argument other than the reserved proxy key
contributes its fragment to the command parts; when the value is the literal
string true the fragment is the bare flag with no following value (and in
particular differs from the flag followed by the value), otherwise it is the
flag followed by the value. -/
theorem c8_theorem (llamaPath ggufPath k v : String) (args : List (String × String))
    (hk : k ≠ "proxy") (hmem : (k, v) ∈ args) :
    argPart k v ∈ cmdParts llamaPath ggufPath args ∧
    (v = "true" → argPart k v = "--" ++ k) ∧
    (v ≠ "true" → argPart k v = "--" ++ k ++ " " ++ v) ∧
    "--" ++ k ≠ "--" ++ k ++ " " ++ v := by
  refine ⟨?_, ?_, ?_, ?_⟩
  · have hmem2 : (k, v) ∈ args.filter (fun kv => !(kv.1 == "proxy")) := by
      rw [List.mem_filter]
      exact ⟨hmem, by simp [hk]⟩
    exact List.mem_append_right _ (List.mem_map_of_mem _ hmem2)
  · intro h
    simp [argPart, h]
  · intro h
    simp [argPart, h]
  · intro h
    have hlen := congrArg String.length h
    have hsp : (" ").length = 1 := rfl
    simp only [String.length_append] at hlen
    omega

/-- Witness for C8: the flash-attn argument with value true renders as a bare
boolean flag and sits among the command parts. -/
theorem c8_witness :
    argPart "flash-attn" "true" ∈
      cmdParts "llama-server" "/data/m.gguf"
        [("flash-attn", "true"), ("ctx-size", "4096")] ∧
    argPart "flash-attn" "true" = "--flash-attn" := by
  have h := c8_theorem "llama-server" "/data/m.gguf" "flash-attn" "true"
    [("flash-attn", "true"), ("ctx-size", "4096")] (by decide) (by decide)
  exact ⟨h.1, h.2.1 rfl⟩

/-- The monitor loop signals at most once over any run: it returns right
after the first signal, so no further tick is polled. -/
theorem monitorRun_le_one (st : WatchState) (snaps : List FsSnapshot) :
    monitorRun st snaps ≤ 1 := by
  induction snaps generalizing st with
  | nil => simp [monitorRun]
  | cons snap rest ih =>
    unfold monitorRun
    cases h : monitorStep st snap with
    | signal => simp
    | next st2 => simpa using ih st2

/-- Claim C5: when the watcher sees the main config file appear after having
recorded it absent, the run over that tick and any later ticks signals
exactly once; and in general no run of the monitor loop ever signals more
than once, because the loop exits at the first signal. -/
theorem c5_theorem (st : WatchState) (snap : FsSnapshot) (rest : List FsSnapshot)
    (h1 : st.mainTime = none) (h2 : snap.mainExists = true) :
    monitorRun st (snap :: rest) = 1 ∧
      ∀ st2 snaps2, monitorRun st2 snaps2 ≤ 1 := by
  have hstep : monitorStep st snap = WatchResult.signal := by
    simp [monitorStep, h1, h2, timeTruthy]
  exact ⟨by simp [monitorRun, hstep], fun st2 snaps2 => monitorRun_le_one st2 snaps2⟩

/-- Initial watcher state with the main file recorded absent. -/
def stAbsent : WatchState := { mainTime := none, modelFiles := [] }

/-- A tick observing the main file present. -/
def snapPresent : FsSnapshot :=
  { mainExists := true, mainMtime := 5, dirExists := true, models := [] }

/-- Witness for C5 at a concrete absent-to-present transition, polled twice
more after the change: still exactly one signal. -/
theorem c5_witness :
    monitorRun stAbsent (snapPresent :: [snapPresent, snapPresent]) = 1 :=
  (c5_theorem stAbsent snapPresent [snapPresent, snapPresent] rfl rfl).1

/-- A current file set all of whose entries are tracked with unchanged mtimes
is not reported by the new-or-modified scan. -/
theorem findChanged_of_tracked (tracked cur : List (String × Nat))
    (h : ∀ p ∈ cur, tracked.lookup p.1 = some p.2) :
    findChanged tracked cur = false := by
  induction cur with
  | nil => rfl
  | cons hd tl ih =>
    obtain ⟨f, m⟩ := hd
    have hf := h (f, m) (List.mem_cons_self _ _)
    simp [findChanged, hf]
    exact ih fun p hp => h p (List.mem_cons_of_mem _ hp)

/-- Claim C6: deletions are treated asymmetrically.  When the main config
file goes from present (with a truthy recorded mtime) to absent, the tick
does not signal: it clears the recorded mtime and keeps polling.  When the
current per-model files are a strict subset of the tracked ones (every
surviving file unchanged, strictly fewer files), the tick signals a change;
the step function is total, so the watcher does not crash on either input. -/
theorem c6_theorem (st stD : WatchState) (t tD : Nat) (snap snapD : FsSnapshot)
    (ht : st.mainTime = some t) (ht0 : t ≠ 0)
    (hgone : snap.mainExists = false)
    (htD : stD.mainTime = some tD) (htD0 : tD ≠ 0)
    (hmainD : snapD.mainExists = true) (hmtD : snapD.mainMtime = tD)
    (hdirD : snapD.dirExists = true)
    (hsub : ∀ p ∈ snapD.models, stD.modelFiles.lookup p.1 = some p.2)
    (hlen : snapD.models.length < stD.modelFiles.length) :
    monitorStep st snap = WatchResult.next { st with mainTime := none } ∧
    monitorStep stD snapD = WatchResult.signal := by
  constructor
  · simp [monitorStep, ht, hgone, timeTruthy, ht0]
  · have hnc := findChanged_of_tracked stD.modelFiles snapD.models hsub
    simp [monitorStep, htD, hmainD, hmtD, hdirD, timeTruthy, htD0,
      checkModels, hnc, hlen]

/-- Watcher state tracking two model files with the main file present. -/
def stTwo : WatchState :=
  { mainTime := some 10, modelFiles := [("a.yaml", 3), ("b.yaml", 4)] }

/-- A tick observing the main file deleted. -/
def snapMainGone : FsSnapshot :=
  { mainExists := false, mainMtime := 0, dirExists := true,
    models := [("a.yaml", 3), ("b.yaml", 4)] }

/-- A tick observing one tracked model file gone and the other unchanged. -/
def snapModelGone : FsSnapshot :=
  { mainExists := true, mainMtime := 10, dirExists := true,
    models := [("a.yaml", 3)] }

/-- Witness for C6 at the concrete scenario of the spec: main-file deletion
only clears the recorded mtime, while deletion of tracked b.yaml signals. -/
theorem c6_witness :
    monitorStep stTwo snapMainGone = WatchResult.next { stTwo with mainTime := none } ∧
    monitorStep stTwo snapModelGone = WatchResult.signal :=
  c6_theorem stTwo stTwo 10 10 snapMainGone snapModelGone rfl (by decide) rfl rfl
    (by decide) rfl rfl rfl (by decide) (by decide)

/-- The parsed records among a list of backing files, in order. -/
def parsedModels : List (String × ModelFile) → List (String × ModelConfig)
  | [] => []
  | (name, file) :: rest =>
    match file with
    | .parsed mc => (name, mc) :: parsedModels rest
    | _ => parsedModels rest

/-- When no backing file is malformed, the enumeration of
save_llama_swap_config completes and yields exactly the parsed records. -/
theorem collectModels_no_malformed (files : List (String × ModelFile))
    (h : ∀ p ∈ files, p.2 ≠ ModelFile.malformed) :
    collectModels files = .ok (parsedModels files) := by
  induction files with
  | nil => rfl
  | cons hd tl ih =>
    obtain ⟨name, file⟩ := hd
    have htl : ∀ p ∈ tl, p.2 ≠ ModelFile.malformed :=
      fun p hp => h p (List.mem_cons_of_mem _ hp)
    cases file with
    | missing => simpa [collectModels, load_model_config, parsedModels] using ih htl
    | malformed => exact absurd rfl (h (name, ModelFile.malformed) (List.mem_cons_self _ _))
    | parsed mc => simp [collectModels, load_model_config, parsedModels, ih htl]

/-- Membership in the parsed records corresponds to a parsed backing file. -/
theorem mem_parsedModels (files : List (String × ModelFile)) (name : String)
    (mc : ModelConfig) :
    (name, mc) ∈ parsedModels files ↔ (name, ModelFile.parsed mc) ∈ files := by
  induction files with
  | nil => simp [parsedModels]
  | cons hd tl ih =>
    obtain ⟨nm, file⟩ := hd
    cases file <;> simp [parsedModels, ih]

/-- When every model dictionary carries its hf_file key, the per-model render
loop completes and produces one entry per model. -/
theorem renderEntries_ok (llamaPath storage : String) (ms : List (String × ModelConfig))
    (h : ∀ p ∈ ms, (p.2).hf_file.isSome = true) :
    ∃ es, renderEntries llamaPath storage ms = .ok es ∧ es.length = ms.length ∧
      ∀ name mc, (name, mc) ∈ ms → ∃ e, (name, e) ∈ es := by
  induction ms with
  | nil => exact ⟨[], rfl, rfl, by simp⟩
  | cons hd tl ih =>
    obtain ⟨name, mc⟩ := hd
    have hhd := h (name, mc) (List.mem_cons_self _ _)
    obtain ⟨f, hf⟩ := Option.isSome_iff_exists.mp hhd
    obtain ⟨es, hes, hlen, hmem⟩ := ih fun p hp => h p (List.mem_cons_of_mem _ hp)
    have hf2 : mc.hf_file = some f := hf
    refine ⟨(name, genModelEntry llamaPath storage mc f) :: es, ?_, by simp [hlen], ?_⟩
    · simp [renderEntries, hf2, hes]
    · intro nm mc2 hm
      rcases List.mem_cons.mp hm with heq | htl2
      · injection heq with h1 h2
        subst h1
        subst h2
        exact ⟨_, List.mem_cons_self _ _⟩
      · obtain ⟨e, he⟩ := hmem nm mc2 htl2
        exact ⟨e, List.mem_cons_of_mem _ he⟩

/-- A backing file that the enumeration handles without aborting: anything
but a malformed file, and a parsed record must carry its hf_file key. -/
def fileOk : ModelFile → Bool
  | .missing => true
  | .malformed => false
  | .parsed mc => mc.hf_file.isSome

/-- Global settings for the enumeration claims. -/
def gC3 : GlobalConfig :=
  { llama_server_path := some "/bin/server", ggufs_storage_path := "/data" }

/-- A well-formed parsed model record. -/
def mcGood : ModelConfig := { hf_file := some "good.gguf" }

/-- Claim C3, counterexample: with one well-formed record and one record
whose file fails to parse (which load_model_config wraps into RuntimeError),
save_llama_swap_config does not skip the bad record and continue: the
uncaught RuntimeError aborts the whole enumeration, because the except
clause catches only ValueError and KeyError. -/
theorem c3_counterexample :
    save_llama_swap_config gC3
        [("good", ModelFile.parsed mcGood), ("bad", ModelFile.malformed)] =
      .error (SaveErr.loadErr LoadErr.runtimeError) := by
  rfl

/-- Claim C3, amended: the enumeration silently skips a record only when its
backing file is missing at load time (the ValueError case); provided no
record fails to YAML-parse and every parsed record carries its artifact-file
key, rendering completes and the document includes every parsed record.  A
parse failure aborts the enumeration with an uncaught RuntimeError. -/
theorem c3_theorem (g : GlobalConfig) (files : List (String × ModelFile))
    (h : ∀ p ∈ files, fileOk p.2 = true) :
    ∃ doc, save_llama_swap_config g files = .ok doc ∧
      ∀ name mc, (name, ModelFile.parsed mc) ∈ files →
        ∃ e, (name, e) ∈ doc.models.getD [] := by
  have hnm : ∀ p ∈ files, p.2 ≠ ModelFile.malformed := by
    intro p hp heq
    have hok := h p hp
    rw [heq] at hok
    exact Bool.noConfusion hok
  have hcol := collectModels_no_malformed files hnm
  have hps : ∀ p ∈ parsedModels files, (p.2).hf_file.isSome = true := by
    intro p hp
    obtain ⟨name, mc⟩ := p
    have hmemf : (name, ModelFile.parsed mc) ∈ files :=
      (mem_parsedModels files name mc).mp hp
    simpa [fileOk] using h (name, ModelFile.parsed mc) hmemf
  obtain ⟨es, hes, hlen, hmem⟩ := renderEntries_ok
    (g.llama_server_path.getD "llama-server") g.ggufs_storage_path
    (parsedModels files) hps
  have hgen : generate_config g (parsedModels files) =
      .ok { passthrough := g.passthrough,
            models := if es.isEmpty then none else some es,
            groups := g.groups } := by
    unfold generate_config
    rw [hes]
  have hsave : save_llama_swap_config g files =
      .ok { passthrough := g.passthrough,
            models := if es.isEmpty then none else some es,
            groups := g.groups } := by
    simp only [save_llama_swap_config, hcol, hgen]
  refine ⟨_, hsave, ?_⟩
  intro name mc hmemf
  have hmp : (name, mc) ∈ parsedModels files :=
    (mem_parsedModels files name mc).mpr hmemf
  obtain ⟨e, he⟩ := hmem name mc hmp
  have hne : es.isEmpty = false := by
    cases es with
    | nil => exact absurd he (List.not_mem_nil _)
    | cons a l => rfl
  refine ⟨e, ?_⟩
  simpa [hne] using he

/-- Witness for the amended C3 theorem: one parsed record plus one record
whose file vanished between glob and load; enumeration completes and the
parsed record is rendered. -/
theorem c3_witness :
    ∃ doc, save_llama_swap_config gC3
        [("good", ModelFile.parsed mcGood), ("ghost", ModelFile.missing)] = .ok doc ∧
      ∀ name mc, (name, ModelFile.parsed mc) ∈
          [("good", ModelFile.parsed mcGood), ("ghost", ModelFile.missing)] →
        ∃ e, (name, e) ∈ doc.models.getD [] :=
  c3_theorem gC3 [("good", ModelFile.parsed mcGood), ("ghost", ModelFile.missing)]
    (by decide)

/-- Looking up a name in a store filtered on that very name finds nothing. -/
theorem lookup_filter_self (store : List (String × ModelFile)) (name : String) :
    (store.filter (fun p => !(p.1 == name))).lookup name = none := by
  induction store with
  | nil => rfl
  | cons hd tl ih =>
    obtain ⟨k, v⟩ := hd
    by_cases hk : k = name
    · simp [List.filter_cons, hk, ih]
    · have hne : (name == k) = false := by
        rw [beq_eq_false_iff_ne]
        exact Ne.symm hk
      simp [List.filter_cons, hk, List.lookup, hne, ih]

/-- Default global settings for the remove-command claims. -/
def gC9 : GlobalConfig := {}

/-- Claim C9, counterexample: removing a name with no backing record does not
complete silently: the ValueError from the initial load is caught and an
error message is printed (though nothing is raised); and a backing record
that is present but corrupt makes the load raise RuntimeError, which the
command does not catch, so the record is not even removed. -/
theorem c9_counterexample :
    (model_remove_command gC9 [] "m1").1 =
      { raised := false, errorPrinted := true, fileRemoved := false } ∧
    (model_remove_command gC9 [("m1", ModelFile.malformed)] "m1").1 =
      { raised := true, errorPrinted := false, fileRemoved := false } :=
  ⟨rfl, rfl⟩

/-- Claim C9, amended: removing a name whose backing record is present and
parseable removes the record from the store; removing a name with no backing
record completes without raising but prints a NotFound error message and
leaves the store unchanged. -/
theorem c9_theorem (g : GlobalConfig) (store : List (String × ModelFile))
    (name : String) :
    (∀ mc, store.lookup name = some (ModelFile.parsed mc) →
      (model_remove_command g store name).1.fileRemoved = true ∧
      (model_remove_command g store name).2.lookup name = none) ∧
    (store.lookup name = none →
      (model_remove_command g store name).1.raised = false ∧
      (model_remove_command g store name).1.errorPrinted = true ∧
      (model_remove_command g store name).2 = store) := by
  constructor
  · intro mc hmc
    have hl : loadFromStore store name = .ok mc := by
      simp [loadFromStore, hmc, load_model_config]
    unfold model_remove_command
    rw [hl]
    cases hsave : save_llama_swap_config g (store.filter fun p => !(p.1 == name)) with
    | error e => simp [hsave, lookup_filter_self]
    | ok doc => simp [hsave, lookup_filter_self]
  · intro habs
    have hl : loadFromStore store name = .error .valueError := by
      simp [loadFromStore, habs]
    unfold model_remove_command
    rw [hl]
    exact ⟨rfl, rfl, rfl⟩

/-- Witness for the amended C9 theorem: removing present m1 removes it from
the store; removing absent m2 raises nothing, prints the error message, and
leaves the store as it was. -/
theorem c9_witness :
    ((model_remove_command gC9 [("m1", ModelFile.parsed mcGood)] "m1").1.fileRemoved = true ∧
     (model_remove_command gC9 [("m1", ModelFile.parsed mcGood)] "m1").2.lookup "m1" = none) ∧
    ((model_remove_command gC9 [] "m2").1.raised = false ∧
     (model_remove_command gC9 [] "m2").1.errorPrinted = true ∧
     (model_remove_command gC9 [] "m2").2 = []) :=
  ⟨(c9_theorem gC9 [("m1", ModelFile.parsed mcGood)] "m1").1 mcGood (by decide),
   (c9_theorem gC9 [] "m2").2 rfl⟩

end Llamate
